import Mathlib

/-!
Verification of the ticket-triage agent.

A shallow embedding of the Python sources of the ticket-triage repository
(`kb/search.py`, `agent/graph.py`, `agent/utils.py`, `agent/tools.py`,
`agent/orchestrator.py`, `app/main.py`, `app/config.py`) together with
theorems settling the frozen claims about the natural-language specification.

Modelling conventions:
* Python floats are modelled as exact rationals (`ℚ`).  `np.linalg.norm`
  (a real square root) is modelled by `Rat.sqrt`, which agrees with the
  real square root whenever numerator and denominator of its argument are
  perfect squares; every concrete input used below has that shape.
* The external OpenAI embedding service is modelled by a queue of scripted
  responses, one per `embeddings.create` call; `none` models the call
  raising an exception.  The completion service behind
  `call_llm_with_retry` is modelled by the outcome of the wrapped call.
* Python dicts keyed by strings are modelled as association lists.
* Fallible Python code is modelled by explicit outcome types
  (`Option`/inductive result types); raising is a constructor, never an
  unmodelled effect.
-/

set_option linter.unusedVariables false
set_option maxRecDepth 8000
set_option linter.unreachableTactic false
set_option linter.unusedTactic false

namespace TicketTriage

/-! ## kb/search.py -/

/-- An embedding vector (Python `List[float]`). -/
abbrev Embedding := List ℚ

/-- One knowledge-base entry as read from `knowledge_base.json`.
`symptoms` and `recommended_action` are the `.get`-defaulted fields. -/
structure KBEntry where
  id : String
  title : String
  category : String
  symptoms : List String
  recommended_action : String
deriving Repr, DecidableEq

/-- One element of the list returned by `KnowledgeBase.search`. -/
structure SearchResult where
  id : String
  title : String
  category : String
  score : ℚ
  recommended_action : String
deriving Repr, DecidableEq

/-- Model of `self.embeddings_cache`: a Python dict keyed by the exact input text. -/
abbrev EmbCache := List (String × Embedding)

/-- The scripted behaviour of the external embedding service: the responses
it will give to successive `embeddings.create` calls.  `none` models the
call raising; an exhausted queue also counts as raising. -/
abbrev SvcQueue := List (Option Embedding)

/-- The mutable state of a `KnowledgeBase` object plus its embedding
service. -/
structure KBState where
  cache : EmbCache
  svc : SvcQueue
deriving Repr, DecidableEq

/-- Pop the next scripted service response. -/
def svcNext : SvcQueue → Option Embedding × SvcQueue
  | [] => (none, [])
  | r :: rs => (r, rs)

/-- Model of `KnowledgeBase._get_embedding`: return the cached vector if the text is
a cache key; otherwise call the service, caching the result on success and
returning the fixed zero vector (uncached) on failure. -/
def get_embedding (st : KBState) (text : String) : Embedding × KBState :=
  match st.cache.lookup text with
  | some v => (v, st)
  | none =>
    match svcNext st.svc with
    | (some emb, svc2) => (emb, ⟨(text, emb) :: st.cache, svc2⟩)
    | (none, svc2) => (List.replicate 1536 0, ⟨st.cache, svc2⟩)

/-- Model of `np.dot` on equal-length vectors. -/
def dotProduct (v1 v2 : List ℚ) : ℚ := (List.zipWith (· * ·) v1 v2).sum

/-- Model of `np.linalg.norm`, modelled with `Rat.sqrt` (exact on the perfect-square
arguments used in all concrete inputs below). -/
def vecNorm (v : List ℚ) : ℚ := Rat.sqrt (dotProduct v v)

/-- Model of `KnowledgeBase._cosine_similarity`: degenerate to `0` when either norm
is zero, else the normalised dot product. -/
def cosine_similarity (v1 v2 : List ℚ) : ℚ :=
  if vecNorm v1 = 0 ∨ vecNorm v2 = 0 then 0
  else dotProduct v1 v2 / (vecNorm v1 * vecNorm v2)

/-- Model of `KnowledgeBase.load_kb`: `diskContents = some entries` models a readable
file parsing to `entries`; `none` models any exception (missing file,
unreadable file, malformed JSON), which is logged and turned into `[]`. -/
def load_kb (diskContents : Option (List KBEntry)) : List KBEntry :=
  match diskContents with
  | some entries => entries
  | none => []

/-- Model of `KnowledgeBase._build_entry_text`: title, then the space-joined
symptoms when present. -/
def build_entry_text (entry : KBEntry) : String :=
  if entry.symptoms.isEmpty then entry.title
  else entry.title ++ " " ++ String.intercalate " " entry.symptoms

/-- Score one entry against the query embedding (the loop body of
`KnowledgeBase.search`). -/
def score_entry (qemb : Embedding) (st : KBState) (entry : KBEntry) :
    SearchResult × KBState :=
  let p := get_embedding st (build_entry_text entry)
  ({ id := entry.id
     title := entry.title
     category := entry.category
     score := cosine_similarity qemb p.1
     recommended_action := entry.recommended_action }, p.2)

/-- The scoring loop of `KnowledgeBase.search`, threading the cache and the
service queue through the entries in order. -/
def score_entries (qemb : Embedding) (st : KBState) :
    List KBEntry → List SearchResult × KBState
  | [] => ([], st)
  | e :: es =>
    let p := score_entry qemb st e
    let q := score_entries qemb p.2 es
    (p.1 :: q.1, q.2)

/-- The comparison used by `results.sort(key=lambda x: x['score'],
reverse=True)`: a stable sort into non-increasing score order. -/
def score_desc (a b : SearchResult) : Bool := b.score ≤ a.score

/-- The unsorted scored list built by `KnowledgeBase.search` before the
`sort`/slice steps. -/
def scored_results (st : KBState) (diskContents : Option (List KBEntry))
    (query : String) : List SearchResult × KBState :=
  let kb_entries := load_kb diskContents
  let p := get_embedding st query
  score_entries p.1 p.2 kb_entries

/-- Model of `KnowledgeBase.search`: reload the KB, score every entry, stable-sort
by descending score and slice to `top_k`. -/
def search (st : KBState) (diskContents : Option (List KBEntry))
    (query : String) (top_k : Nat) : List SearchResult × KBState :=
  let p := scored_results st diskContents query
  ((p.1.mergeSort score_desc).take top_k, p.2)

/-! ## agent/tools.py -/

/-- Two-decimal rendering of a score, modelling Python `"{:.2f}"` (the
half-even rounding difference of binary floats is immaterial for the
concrete values used here). -/
def formatScore2 (q : ℚ) : String :=
  let hund : ℤ := round (q * 100)
  let sign := if hund < 0 then "-" else ""
  let a := hund.natAbs
  let r := a % 100
  sign ++ toString (a / 100) ++ "." ++ (if r < 10 then "0" else "") ++ toString r

/-- One formatted line pair of `search_knowledge_base`. -/
def format_result (item : SearchResult) : String :=
  "- ID: " ++ item.id ++ " | " ++ item.title ++ " | Similarity: " ++
    formatScore2 item.score ++ "\n" ++
  "  Recommended action: " ++ item.recommended_action ++ "\n"

/-- The `search_knowledge_base` tool: top-3 search rendered as text, with a
fixed sentence when nothing matched. -/
def search_knowledge_base (st : KBState) (diskContents : Option (List KBEntry))
    (query : String) : String × KBState :=
  let p := search st diskContents query 3
  if p.1.isEmpty then
    ("No matching known issues found in the knowledge base.", p.2)
  else
    (p.1.foldl (fun acc item => acc ++ format_result item)
      "Found related known issues:\n", p.2)

/-! ## app/config.py -/

/-- The settings fields relevant to the claims. -/
structure Settings where
  ENVIRONMENT : String
  DEBUG : Bool
  LOG_LEVEL : String
  MAX_RETRIES : Nat
  RETRY_DELAY : ℚ
  RETRY_BACKOFF : ℚ
  PORT : Nat
  MAX_DESCRIPTION_LENGTH : Nat
deriving Repr, DecidableEq

/-- The field defaults declared on the base `Settings` class. -/
def baseSettings : Settings :=
  { ENVIRONMENT := "dev", DEBUG := true, LOG_LEVEL := "INFO"
    MAX_RETRIES := 3, RETRY_DELAY := 1, RETRY_BACKOFF := 2
    PORT := 8000, MAX_DESCRIPTION_LENGTH := 5000 }

/-- Model of `DevelopmentSettings`: overrides on top of the base defaults. -/
def DevelopmentSettings : Settings :=
  { baseSettings with
    ENVIRONMENT := "dev", DEBUG := true, LOG_LEVEL := "DEBUG", MAX_RETRIES := 2 }

/-- Model of `ProductionSettings`. -/
def ProductionSettings : Settings :=
  { baseSettings with
    ENVIRONMENT := "prod", DEBUG := false, LOG_LEVEL := "WARNING", MAX_RETRIES := 5 }

/-- Model of `TestingSettings`. -/
def TestingSettings : Settings :=
  { baseSettings with
    ENVIRONMENT := "test", DEBUG := true, LOG_LEVEL := "DEBUG", MAX_RETRIES := 1 }

/-- Model of `get_settings`, taking the already-lowercased `ENVIRONMENT` variable
(its `os.getenv` default is `"dev"`). -/
def get_settings (env : String) : Settings :=
  if env = "prod" ∨ env = "production" then ProductionSettings
  else if env = "test" ∨ env = "testing" then TestingSettings
  else DevelopmentSettings

/-! ## agent/utils.py -/

/-- The exception classes named in the `exceptions` tuple of
`retry_with_backoff`: `rateLimit`, `timeout` and `connection` are the
transient families; `apiOther` is any other `APIError` subclass, which the
tuple also catches. -/
inductive APIErrKind
  | rateLimit
  | timeout
  | connection
  | apiOther
deriving Repr, DecidableEq

/-- The outcome of one attempt of the wrapped function: a value, an
exception in the retry tuple, or any other exception. -/
inductive CallAttempt (α : Type)
  | ok (v : α)
  | apiErr (kind : APIErrKind) (msg : String)
  | otherExc (msg : String)
deriving Repr, DecidableEq

/-- What a call through the retry wrapper can produce: a value, the
normalized `LLMError`, or an unexpected exception propagated unchanged. -/
inductive RetryResult (α : Type)
  | ok (v : α)
  | llmError (msg : String)
  | raised (msg : String)
deriving Repr, DecidableEq

/-- The observable run of the retry wrapper: its result, the durations
passed to `time.sleep` in order, and the number of attempts made. -/
structure RetryTrace (α : Type) where
  result : RetryResult α
  sleeps : List ℚ
  calls : Nat
deriving Repr, DecidableEq

/-- The loop body of `retry_with_backoff`: `attempt` is the Python loop
index, `remaining = max_retries - attempt` (so `remaining = 0` is the
`attempt == max_retries` check), `delay` the current sleep duration. -/
def retry_go (attempts : Nat → CallAttempt α) (max_retries : Nat)
    (backoff_factor : ℚ) :
    Nat → Nat → ℚ → List ℚ → RetryTrace α
  | attempt, remaining, delay, sleeps =>
    match attempts attempt with
    | .ok v => ⟨.ok v, sleeps, attempt + 1⟩
    | .apiErr _ msg =>
      match remaining with
      | 0 =>
        ⟨.llmError ("LLM call failed after " ++ toString max_retries ++
            " retries: " ++ msg), sleeps, attempt + 1⟩
      | r + 1 =>
        retry_go attempts max_retries backoff_factor (attempt + 1) r
          (delay * backoff_factor) (sleeps ++ [delay])
    | .otherExc msg => ⟨.raised msg, sleeps, attempt + 1⟩

/-- Model of `retry_with_backoff`, applied to a function whose successive attempts
behave as `attempts`: up to `max_retries + 1` attempts, sleeping `delay`
then multiplying it by `backoff_factor` after each caught tuple exception,
normalizing exhaustion into `LLMError` and propagating other exceptions
immediately. -/
def retry_with_backoff (max_retries : Nat) (initial_delay backoff_factor : ℚ)
    (attempts : Nat → CallAttempt α) : RetryTrace α :=
  retry_go attempts max_retries backoff_factor 0 max_retries initial_delay []

/-- The exception given to `handle_llm_error`, by the isinstance family it
falls into (the dispatch order in the source checks subclasses first, so
the families are disjoint). -/
inductive CaughtError
  | rateLimitError (msg : String)
  | apiTimeoutError (msg : String)
  | apiConnectionError (msg : String)
  | apiError (msg : String)
  | llmErr (msg : String)
  | other (msg : String)
deriving Repr, DecidableEq

/-- Model of `handle_llm_error`: the `(error, message)` pair of the returned dict. -/
def handle_llm_error : CaughtError → String × String
  | .rateLimitError _ =>
    ("rate_limit", "API rate limit exceeded. Please try again in a moment.")
  | .apiTimeoutError _ => ("timeout", "Request timed out. Please try again.")
  | .apiConnectionError _ =>
    ("connection",
      "Unable to connect to AI service. Please check your internet connection.")
  | .apiError m => ("api_error", "AI service error: " ++ m)
  | .llmErr m => ("llm_error", m)
  | .other _ => ("unknown", "An unexpected error occurred. Please try again.")

/-- Python `str.strip()`: drop leading and trailing whitespace.  Defined
over the character list so that it evaluates (Lean's `String.trim` is
defined by well-founded recursion on byte positions). -/
def pyStrip (s : String) : String :=
  String.mk (((s.data.dropWhile Char.isWhitespace).reverse.dropWhile
    Char.isWhitespace).reverse)

/-! ## agent/graph.py -/

/-- The five structured fields bound by the `classify_ticket` tool schema;
string-typed because the model's tool-call args arrive as JSON strings. -/
structure Classification where
  summary : String
  category : String
  severity : String
  issue_type : String
  next_action : String
deriving Repr, DecidableEq

/-- A LangChain message: a role tag, text content, and any tool calls
(name and rendered args) attached to an AI message. -/
structure Message where
  role : String
  content : String
  tool_calls : List (String × String)
deriving Repr, DecidableEq

/-- Model of `SystemMessage(content)`. -/
def SystemMessage (content : String) : Message := ⟨"system", content, []⟩

/-- Model of `HumanMessage(content)`. -/
def HumanMessage (content : String) : Message := ⟨"human", content, []⟩

/-- Model of `AIMessage(content)`. -/
def AIMessage (content : String) : Message := ⟨"ai", content, []⟩

/-- Model of `AgentState`: the graph's `TypedDict`.  Every key other than
`messages` may be absent (`none`), matching the `state.get` accesses in
the source; `messages` is the `add_messages`-annotated append-only list. -/
structure AgentState where
  messages : List Message
  kb_results : Option String
  classification : Option Classification
  needs_more_info : Option Bool
  additional_details : Option String
  interrupt_question : Option String
deriving Repr, DecidableEq

/-- The dict a node returns: present keys overwrite the state entry
(`messages` instead appends).  `none`/`[]` model an absent key. -/
structure NodeUpdate where
  kb_results : Option String
  classification : Option Classification
  needs_more_info : Option Bool
  interrupt_question : Option String
  messages : List Message
deriving Repr, DecidableEq

/-- The empty update dict. -/
def emptyUpdate : NodeUpdate := ⟨none, none, none, none, []⟩

/-- LangGraph's merge of a node's returned dict into the channel state:
`messages` appends (`add_messages`), every other present key overwrites;
no node ever returns `additional_details`, so it is always kept. -/
def applyUpdate (s : AgentState) (u : NodeUpdate) : AgentState :=
  { messages := s.messages ++ u.messages
    kb_results := (u.kb_results).orElse (fun _ => s.kb_results)
    classification := (u.classification).orElse (fun _ => s.classification)
    needs_more_info := (u.needs_more_info).orElse (fun _ => s.needs_more_info)
    additional_details := s.additional_details
    interrupt_question := (u.interrupt_question).orElse (fun _ => s.interrupt_question) }

/-- The outcome of the single `call_llm_with_retry` invocation inside a
node's `try` block: the returned message (content plus the structured args
of any tool calls), the normalized `LLMError`, or any other exception. -/
inductive LLMCallOutcome
  | response (content : String) (tool_call_args : List Classification)
  | llmFailure (msg : String)
  | unexpected (msg : String)
deriving Repr, DecidableEq

/-- How a node sees the retry wrapper's run: values pass through, the
normalized error is caught as `LLMError`, anything else as `Exception`. -/
def outcomeOfRetry (t : RetryTrace (String × List Classification)) :
    LLMCallOutcome :=
  match t.result with
  | .ok v => .response v.1 v.2
  | .llmError m => .llmFailure m
  | .raised m => .unexpected m

/-- Model of `state["messages"][0].content` (the source assumes a nonempty message
list; every state built by the app starts with the ticket `HumanMessage`). -/
def user_query (s : AgentState) : String :=
  (s.messages.headD (HumanMessage "")).content

/-- The combined context built in `analyze_node`. -/
def full_context_analyze (uq additional_details : String) : String :=
  if additional_details = "" then uq
  else uq ++ "\n\nAdditional details provided by user:\n" ++ additional_details

/-- The combined context built in `classify_node`. -/
def full_context_classify (uq additional_details : String) : String :=
  if additional_details = "" then uq
  else uq ++ "\n\nAdditional details: " ++ additional_details

/-- Model of `search_kb_node`: search on the latest message's content, record the
text summary and append a system message. -/
def search_kb_node (st : KBState) (diskContents : Option (List KBEntry))
    (s : AgentState) : NodeUpdate × KBState :=
  let uq := (s.messages.getLastD (HumanMessage "")).content
  let p := search_knowledge_base st diskContents uq
  ({ emptyUpdate with
      kb_results := some p.1
      messages := [SystemMessage ("Knowledge base search results:\n" ++ p.1)] },
    p.2)

/-- Model of `analyze_node`: decide `PROCEED` vs `NEED_MORE_INFO` from the model's
reply; on `LLMError` or any other exception, proceed best-effort with
`needs_more_info = False`. -/
def analyze_node (s : AgentState) (llm : LLMCallOutcome) : NodeUpdate :=
  match llm with
  | .response content _ =>
    let c := pyStrip content
    if c.startsWith "NEED_MORE_INFO:" then
      let question := pyStrip (c.replace "NEED_MORE_INFO:" "")
      { emptyUpdate with
          needs_more_info := some true
          interrupt_question := some question
          messages := [AIMessage
            ("🤔 I need more information to properly classify this ticket.\n\nQuestion: "
              ++ question)] }
    else
      { emptyUpdate with
          needs_more_info := some false
          messages := [AIMessage "Proceeding with classification..."] }
  | .llmFailure msg =>
    { emptyUpdate with
        needs_more_info := some false
        messages := [AIMessage
          ("⚠️ Error analyzing ticket: " ++ (handle_llm_error (.llmErr msg)).2
            ++ ". Proceeding with best-effort classification.")] }
  | .unexpected _ =>
    { emptyUpdate with
        needs_more_info := some false
        messages := [AIMessage
          "⚠️ An error occurred during analysis. Proceeding with classification..."] }

/-- Rendering of a tool-call args dict, used only as an opaque payload in
message and stream events. -/
def classificationRepr (c : Classification) : String :=
  "summary=" ++ c.summary ++ "; category=" ++ c.category ++ "; severity=" ++
    c.severity ++ "; issue_type=" ++ c.issue_type ++ "; next_action=" ++
    c.next_action

/-- Model of `classify_node`: accept the first tool call's args verbatim; otherwise
fall back deterministically, with the three fallback branches of the
source (`no tool calls`, `except LLMError`, `except Exception`). -/
def classify_node (s : AgentState) (llm : LLMCallOutcome) : NodeUpdate :=
  let uq := user_query s
  let additional_details := (s.additional_details).getD ""
  let full_context := full_context_classify uq additional_details
  match llm with
  | .response content args =>
    match args.head? with
    | some classification =>
      { emptyUpdate with
          classification := some classification
          messages := [⟨"ai", content,
            args.map (fun a => ("classify_ticket", classificationRepr a))⟩] }
    | none =>
      { emptyUpdate with
          classification := some
            { summary := full_context.take 100
              category := "Bug"
              severity := "Medium"
              issue_type := "new_issue"
              next_action := "Manual review required - classification incomplete" }
          messages := [⟨"ai", content, []⟩] }
  | .llmFailure msg =>
    { emptyUpdate with
        classification := some
          { summary := full_context.take 100 ++ "..."
            category := "Bug"
            severity := "Medium"
            issue_type := "new_issue"
            next_action := "Manual review required - "
              ++ (handle_llm_error (.llmErr msg)).2 }
        messages := [AIMessage
          ("⚠️ Classification completed with fallback due to error: "
            ++ (handle_llm_error (.llmErr msg)).2)] }
  | .unexpected _ =>
    { emptyUpdate with
        classification := some
          { summary := "Error during classification"
            category := "Bug"
            severity := "Medium"
            issue_type := "new_issue"
            next_action := "Manual review required - unexpected error" }
        messages := [AIMessage
          "⚠️ An error occurred during classification. Please review manually."] }

/-- Python truthiness of `state.get("additional_details")`: `None` and the
empty string are falsy. -/
def optTruthy : Option String → Bool
  | none => false
  | some s => !(s == "")

/-- Model of `should_interrupt`: the conditional edge evaluated after ANALYZE. -/
def should_interrupt (s : AgentState) : String :=
  if (s.needs_more_info).getD false && !(optTruthy s.additional_details) then
    "interrupt"
  else "classify"

/-! ## agent/orchestrator.py -/

/-- One NDJSON event yielded by `triage_stream`, as its key-value pairs
(values rendered as strings; only the keys matter to the claims). -/
abbrev Event := List (String × String)

/-- The orchestrator's `initial_state`: the ticket message plus explicit
empty `kb_results`/`classification` entries (an empty dict modelled as no
classification yet). -/
def initial_state (description : String) : AgentState :=
  { messages := [HumanMessage description]
    kb_results := some ""
    classification := none
    needs_more_info := none
    additional_details := none
    interrupt_question := none }

/-- The events produced for one message of a node output: a `message`
event when the content is nonempty, then one `tool_call` event per tool
call. -/
def messageEvents (msg : Message) : List Event :=
  (if msg.content = "" then []
   else [[("type", "message"), ("content", msg.content)]]) ++
  msg.tool_calls.map (fun tc =>
    [("type", "tool_call"), ("tool", tc.1), ("args", tc.2)])

/-- The loop body of `triage_stream` for one `(node_name, node_output)`
item of a streamed update. -/
def nodeEvents (node_name : String) (u : NodeUpdate) : List Event :=
  [[("type", "node_start"), ("node", node_name),
    ("message", "Executing node: " ++ node_name)]] ++
  (if node_name = "search_kb" then
    match u.kb_results with
    | some kb => [[("type", "kb_search_complete"), ("data", kb)]]
    | none => []
   else []) ++
  (if node_name = "classify" then
    match u.classification with
    | some c => [[("type", "classification_complete"),
                  ("data", classificationRepr c)]]
    | none => []
   else []) ++
  (u.messages.map messageEvents).flatten ++
  [[("type", "node_complete"), ("node", node_name)]]

/-- Model of `TriageAgent.triage_stream`: the first `status` event, then the events
for each streamed graph update (`gevents` lists the updates the stream
yielded, each a dict of node outputs), then either the final `status`
event or — when the graph run raised after those updates — a single
`error` event from the `except` clause. -/
def triage_stream (description : String)
    (gevents : List (List (String × NodeUpdate))) (exc : Option String) :
    List Event :=
  [[("type", "status"), ("message", "Starting triage with LangGraph")]] ++
  (gevents.map (fun ev => (ev.map (fun p => nodeEvents p.1 p.2)).flatten)).flatten ++
  match exc with
  | none => [[("type", "status"), ("message", "Triage complete")]]
  | some m => [[("type", "error"), ("message", m)]]

/-- The methods defined on the `TriageAgent` class in
`agent/orchestrator.py` (Python name lookup on an instance). -/
def triageAgentMethods : List String :=
  ["__init__", "triage_stream", "_search_kb_with_stream", "_build_messages",
   "_get_tools", "_parse_response"]

/-! ## app/main.py -/

/-- What an endpoint handler produces: an `HTTPException` with a status
code and detail, or a started `StreamingResponse`. -/
inductive HTTPResult
  | httpError (status : Nat) (detail : String)
  | streamingResponse
deriving Repr, DecidableEq

/-- The HTTP status the caller observes. -/
def statusCode : HTTPResult → Nat
  | .httpError s _ => s
  | .streamingResponse => 200

/-- Model of `resume_ticket_triage`: validate the two fields, then call
`agent.resume_with_details(...)` inside `try`.  `TriageAgent` defines no
such method, so the attribute lookup raises `AttributeError`, which the
bare `except Exception` converts into a 500 `HTTPException` — for every
`thread_id`, known or unknown. -/
def resume_ticket_triage (thread_id additional_details : String) : HTTPResult :=
  if thread_id = "" then .httpError 400 "thread_id is required"
  else if pyStrip additional_details = "" then
    .httpError 400 "additional_details cannot be empty"
  else if triageAgentMethods.contains "resume_with_details" then
    .streamingResponse
  else
    .httpError 500 "TriageAgent object has no attribute resume_with_details"

/-! ## Concrete scenarios used by witnesses and counterexamples

The embedding vectors are chosen with perfect-square norms (`0` or `1`)
so that the `Rat.sqrt` model of the float norm is exact. -/

/-- A KB entry for concrete runs. -/
def wEntry1 : KBEntry := ⟨"KB-1", "Login failure", "Login", [], "Reset password"⟩

/-- A second KB entry for concrete runs (distinct id/title, same score as
`wEntry1` under `wKB`, producing an equal-score tie). -/
def wEntry2 : KBEntry := ⟨"KB-2", "Checkout error", "Bug", [], "Escalate"⟩

/-- A fresh `KnowledgeBase` whose embedding service answers the first
three calls with the unit vector `[1]`. -/
def wKB : KBState := ⟨[], [some [1], some [1], some [1]]⟩

/-- The search result produced for `wEntry1`. -/
def wRes1 : SearchResult := ⟨"KB-1", "Login failure", "Login", 1, "Reset password"⟩

/-- The search result produced for `wEntry2`. -/
def wRes2 : SearchResult := ⟨"KB-2", "Checkout error", "Bug", 1, "Escalate"⟩

/-- A fresh `KnowledgeBase` whose embedding service answers two calls with
the unit vector `[1]` (query and single entry). -/
def cxKB : KBState := ⟨[], [some [1], some [1]]⟩

/-- The agent state after the SEARCH stage of a concrete triage of the
ticket `"login error"` over the one-entry knowledge base `[wEntry1]`. -/
def cxAgent : AgentState :=
  applyUpdate (initial_state "login error")
    (search_kb_node cxKB (some [wEntry1]) (initial_state "login error")).1

/-- A resumed-invocation state: ANALYZE had asked for more information and
the resume call supplied nonempty `additional_details`. -/
def wResumed : AgentState :=
  { messages := [HumanMessage "help"]
    kb_results := some "No matching known issues found in the knowledge base."
    classification := none
    needs_more_info := some true
    additional_details := some "browser Chrome, error happens on step 2"
    interrupt_question := some "What do you need help with?" }

/-! ## Helper lemmas -/

/-- The descending-score comparison is transitive. -/
theorem score_desc_trans (a b c : SearchResult) (h1 : score_desc a b)
    (h2 : score_desc b c) : score_desc a c := by
  simp only [score_desc, decide_eq_true_eq] at *
  exact le_trans h2 h1

/-- The descending-score comparison is total. -/
theorem score_desc_total (a b : SearchResult) :
    score_desc a b || score_desc b a := by
  simp only [score_desc, Bool.or_eq_true, decide_eq_true_eq]
  exact le_total b.score a.score

/-- Evaluation of the scored list in the concrete tie scenario. -/
theorem wScored_eval :
    (scored_results wKB (some [wEntry1, wEntry2]) "login error").1 =
      [wRes1, wRes2] := by
  simp [scored_results, load_kb, get_embedding, score_entries, score_entry,
    build_entry_text, cosine_similarity, vecNorm, dotProduct, svcNext,
    wEntry1, wEntry2, wKB, wRes1, wRes2, List.lookup]

/-! ## C6 -/

/-- C6: for every query and every `k`, `search(query, k)` returns at most
`k` results, ordered by non-increasing score; the sort is stable, so two
scored entries in knowledge-base order whose scores tie (or are already
descending) keep their relative order in the sorted list, of which the
returned list is the first-`k` slice of the sorted list. -/
theorem C6_search_sorted_topk (st : KBState) (disk : Option (List KBEntry))
    (query : String) (k : Nat) :
    (search st disk query k).1.length ≤ k ∧
    (search st disk query k).1.Pairwise (fun a b => b.score ≤ a.score) ∧
    (∀ a b : SearchResult, List.Sublist [a, b] (scored_results st disk query).1 →
      b.score ≤ a.score →
      List.Sublist [a, b] ((scored_results st disk query).1.mergeSort score_desc)) ∧
    (search st disk query k).1 =
      ((scored_results st disk query).1.mergeSort score_desc).take k := by
  refine ⟨?_, ?_, ?_, rfl⟩
  · simp [search, List.length_take]
  · have hsorted :
        ((scored_results st disk query).1.mergeSort score_desc).Pairwise
          (fun a b => score_desc a b) :=
      List.sorted_mergeSort score_desc_trans score_desc_total _
    have hsub : List.Sublist (search st disk query k).1
        ((scored_results st disk query).1.mergeSort score_desc) := by
      simp only [search]
      exact List.take_sublist _ _
    refine (hsorted.sublist hsub).imp ?_
    intro a b h
    simpa [score_desc] using h
  · intro a b hsub hscore
    refine List.pair_sublist_mergeSort score_desc_trans score_desc_total ?_ hsub
    simpa [score_desc] using hscore

/-- C6 instantiated on a concrete knowledge base with an equal-score tie:
both properties evaluate, and the tied pair keeps its KB order. -/
theorem C6_search_sorted_topk_witness :
    (search wKB (some [wEntry1, wEntry2]) "login error" 2).1.length ≤ 2 ∧
    List.Sublist [wRes1, wRes2]
      ((scored_results wKB (some [wEntry1, wEntry2]) "login error").1.mergeSort
        score_desc) := by
  refine ⟨(C6_search_sorted_topk wKB (some [wEntry1, wEntry2]) "login error" 2).1, ?_⟩
  refine (C6_search_sorted_topk wKB (some [wEntry1, wEntry2]) "login error" 2).2.2.1
    wRes1 wRes2 ?_ ?_
  · rw [wScored_eval]
  · exact le_refl 1

/-! ## C10 -/

/-- C10: a failed knowledge-base load yields `[]` from `load_kb`, so every
search over it returns the empty result list and the
`search_knowledge_base` tool reports that nothing matched. -/
theorem C10_load_failure_empty_search (st : KBState) (query : String) (k : Nat) :
    load_kb none = [] ∧
    (search st none query k).1 = [] ∧
    (search_knowledge_base st none query).1 =
      "No matching known issues found in the knowledge base." := by
  refine ⟨rfl, ?_, ?_⟩
  · simp [search, scored_results, load_kb, score_entries]
  · simp [search_knowledge_base, search, scored_results, load_kb, score_entries]

/-! ## C7 -/

/-- C7 (amended): the embedding cache is keyed solely by the exact input
text.  A cache hit returns the cached vector without consulting the
service; a miss answered by the service caches the vector under the text
key, and every later call with that text reuses it, consuming no service
response.  (A failed first call returns the zero vector uncached — see the
counterexample.) -/
theorem C7_embedding_cache_reuse (cache : EmbCache) (svc rest : SvcQueue)
    (text : String) (emb : Embedding) :
    (cache.lookup text = some emb →
      get_embedding ⟨cache, svc⟩ text = (emb, ⟨cache, svc⟩)) ∧
    (cache.lookup text = none →
      get_embedding ⟨cache, some emb :: rest⟩ text =
        (emb, ⟨(text, emb) :: cache, rest⟩)) ∧
    (∀ svc2, get_embedding ⟨(text, emb) :: cache, svc2⟩ text =
      (emb, ⟨(text, emb) :: cache, svc2⟩)) := by
  refine ⟨fun h => ?_, fun h => ?_, fun svc2 => ?_⟩
  · simp [get_embedding, h]
  · simp [get_embedding, h, svcNext]
  · simp [get_embedding, List.lookup]

/-- C7's amended statement evaluated on a concrete text: a successful
first call caches `[1]` under the text, and the second call reuses it. -/
theorem C7_embedding_cache_reuse_witness :
    get_embedding ⟨[], [some [1]]⟩ "login error" =
      ([1], ⟨[("login error", [1])], []⟩) ∧
    get_embedding ⟨[("login error", [1])], []⟩ "login error" =
      ([1], ⟨[("login error", [1])], []⟩) :=
  ⟨(C7_embedding_cache_reuse [] [some [1]] [] "login error" [1]).2.1 rfl,
   (C7_embedding_cache_reuse [] [] [] "login error" [1]).2.2 []⟩

/-- C7 counterexample: when the first call's service request fails, the
zero vector is returned but not cached, and a second call with the same
text regenerates — here obtaining a different vector.  So two calls with
the same text do not always return the same vector. -/
theorem C7_cache_counterexample :
    (get_embedding ⟨[], [none, some [1]]⟩ "login error").1 =
      List.replicate 1536 0 ∧
    (get_embedding (get_embedding ⟨[], [none, some [1]]⟩ "login error").2
      "login error").1 = [1] ∧
    List.replicate 1536 0 ≠ ([1] : Embedding) := by
  refine ⟨rfl, rfl, fun h => ?_⟩
  have hlen := congrArg List.length h
  rw [List.length_replicate] at hlen
  simp only [List.length_singleton] at hlen
  omega

/-! ## C1 -/

/-- C1: `should_interrupt` suspends exactly when `needs_more_info` is true
and `additional_details` is empty (absent or the empty string); otherwise
it routes to CLASSIFY.  Consequently a state carrying nonempty
`additional_details` routes to CLASSIFY after any ANALYZE update (no node
update touches `additional_details`), so a resumed invocation never
re-suspends regardless of what ANALYZE decided. -/
theorem C1_should_interrupt_branch (s : AgentState) :
    (should_interrupt s = "interrupt" ↔
      s.needs_more_info = some true ∧
        (s.additional_details = none ∨ s.additional_details = some "")) ∧
    (should_interrupt s = "interrupt" ∨ should_interrupt s = "classify") ∧
    (∀ d : String, d ≠ "" → s.additional_details = some d →
      ∀ u : NodeUpdate, should_interrupt (applyUpdate s u) = "classify") := by
  refine ⟨?_, ?_, ?_⟩
  · rcases s with ⟨msgs, kb, cl, nmi, ad, iq⟩
    rcases nmi with _ | b
    · simp [should_interrupt]
    · rcases b <;> rcases ad with _ | d <;>
        simp [should_interrupt, optTruthy] <;>
        by_cases hd : d = "" <;> simp [hd]
  · unfold should_interrupt
    split
    · exact Or.inl rfl
    · exact Or.inr rfl
  · intro d hd had u
    simp [applyUpdate, should_interrupt, had, optTruthy, hd]

/-- C1 on a concrete resumed state (nonempty `additional_details`, ANALYZE
again demanding more information): the branch routes to CLASSIFY. -/
theorem C1_should_interrupt_branch_witness :
    should_interrupt (applyUpdate wResumed
      { emptyUpdate with
        needs_more_info := some true
        interrupt_question := some "Which page?" }) = "classify" :=
  (C1_should_interrupt_branch wResumed).2.2
    "browser Chrome, error happens on step 2" (by decide) rfl
    { emptyUpdate with
      needs_more_info := some true
      interrupt_question := some "Which page?" }

/-! ## C3 -/

/-- C3: when the completion-service call in ANALYZE exhausts its retries
(the retry wrapper's run ends in the normalized `LLMError`), the node
catches it and returns `needs_more_info = False`, so the branch after
ANALYZE routes to CLASSIFY — the pipeline neither suspends nor raises. -/
theorem C3_analyze_error_proceeds (s : AgentState)
    (t : RetryTrace (String × List Classification)) (m : String)
    (h : t.result = .llmError m) :
    (analyze_node s (outcomeOfRetry t)).needs_more_info = some false ∧
    should_interrupt (applyUpdate s (analyze_node s (outcomeOfRetry t))) =
      "classify" := by
  have hout : outcomeOfRetry t = .llmFailure m := by
    simp [outcomeOfRetry, h]
  rw [hout]
  constructor
  · rfl
  · simp [analyze_node, applyUpdate, should_interrupt]

/-- C3 on a concrete run: two scripted timeouts exhaust the dev retry
budget, and ANALYZE still proceeds toward CLASSIFY. -/
theorem C3_analyze_error_proceeds_witness :
    (analyze_node (initial_state "help")
      (outcomeOfRetry (retry_with_backoff 2 1 2
        (fun _ => .apiErr .timeout "Request timed out.")))).needs_more_info =
      some false ∧
    should_interrupt (applyUpdate (initial_state "help")
      (analyze_node (initial_state "help")
        (outcomeOfRetry (retry_with_backoff 2 1 2
          (fun _ => .apiErr .timeout "Request timed out."))))) = "classify" :=
  C3_analyze_error_proceeds (initial_state "help")
    (retry_with_backoff 2 1 2 (fun _ => .apiErr .timeout "Request timed out."))
    "LLM call failed after 2 retries: Request timed out." (by decide)

/-! ## C2 -/

/-- C2 (amended): `classify_node` is total over every completion-service
behaviour and always produces a classification: the first tool call's args
verbatim, and otherwise a deterministic fallback with `category=Bug`,
`severity=Medium`, `issue_type=new_issue` and a `next_action` beginning
`"Manual review required - "`.  The fallback `summary` is the 100-character
truncation of the ticket context in the no-tool-call branch, that
truncation followed by `"..."` in the retry-exhaustion branch, and the
fixed text `"Error during classification"` in the unexpected-exception
branch. -/
theorem C2_classify_never_raises (s : AgentState) (c : Classification)
    (args : List Classification) (content m : String) :
    ((classify_node s (.response content (c :: args))).classification = some c) ∧
    ((classify_node s (.response content [])).classification = some
      { summary := (full_context_classify (user_query s)
          ((s.additional_details).getD "")).take 100
        category := "Bug"
        severity := "Medium"
        issue_type := "new_issue"
        next_action := "Manual review required - classification incomplete" }) ∧
    ((classify_node s (.llmFailure m)).classification = some
      { summary := (full_context_classify (user_query s)
          ((s.additional_details).getD "")).take 100 ++ "..."
        category := "Bug"
        severity := "Medium"
        issue_type := "new_issue"
        next_action := "Manual review required - " ++ m }) ∧
    ((classify_node s (.unexpected m)).classification = some
      { summary := "Error during classification"
        category := "Bug"
        severity := "Medium"
        issue_type := "new_issue"
        next_action := "Manual review required - unexpected error" }) ∧
    (∀ llm : LLMCallOutcome, (classify_node s llm).classification ≠ none) := by
  refine ⟨rfl, rfl, ?_, rfl, ?_⟩
  · simp [classify_node, handle_llm_error]
  · intro llm
    rcases llm with ⟨content2, args2⟩ | m2 | m2
    · rcases args2 with _ | ⟨c2, args2⟩ <;> simp [classify_node]
    · simp [classify_node]
    · simp [classify_node]

/-- C2 counterexample: in the unexpected-exception failure branch the
fallback `summary` is the fixed text `"Error during classification"`, not
the truncated original ticket text, refuting the claim's description of
the fallback summary. -/
theorem C2_classify_counterexample :
    (classify_node (initial_state "Payment page crashes on submit")
        (.unexpected "KeyError")).classification =
      some
        { summary := "Error during classification"
          category := "Bug"
          severity := "Medium"
          issue_type := "new_issue"
          next_action := "Manual review required - unexpected error" } ∧
    "Error during classification" ≠
      (full_context_classify "Payment page crashes on submit" "").take 100 := by
  exact ⟨rfl, by decide⟩

/-! ## C9 -/

/-- C9 (amended): the code does not compute `issue_type` from the search
scores — the comparison with 0.5 is delegated to the completion service
through the prompt.  A structured tool call's `issue_type` is accepted
verbatim, and every fallback branch sets `issue_type = "new_issue"`
regardless of the scores. -/
theorem C9_issue_type_delegated (s : AgentState) (c : Classification)
    (args : List Classification) (content m : String) :
    ((classify_node s (.response content (c :: args))).classification.map
      Classification.issue_type = some c.issue_type) ∧
    ((classify_node s (.response content [])).classification.map
      Classification.issue_type = some "new_issue") ∧
    ((classify_node s (.llmFailure m)).classification.map
      Classification.issue_type = some "new_issue") ∧
    ((classify_node s (.unexpected m)).classification.map
      Classification.issue_type = some "new_issue") := by
  exact ⟨rfl, rfl, by simp [classify_node, handle_llm_error], rfl⟩

/-- C9 counterexample: a completed triage whose top (only) search score is
`1 > 0.5`, yet whose classification — produced by the retry-exhaustion
fallback — has `issue_type = "new_issue"`, refuting the claimed
biconditional. -/
theorem C9_issue_type_counterexample :
    ((search cxKB (some [wEntry1]) "login error" 3).1.map
      (fun r => r.score)) = [1] ∧
    ((1 : ℚ) > 1/2) ∧
    ((classify_node cxAgent
        (.llmFailure "LLM call failed after 2 retries: Rate limit")).classification.map
      Classification.issue_type = some "new_issue") ∧
    ("new_issue" : String) ≠ "known_issue" := by
  refine ⟨?_, by norm_num, rfl, by decide⟩
  have h : (scored_results cxKB (some [wEntry1]) "login error").1 = [wRes1] := by
    simp [scored_results, load_kb, get_embedding, score_entries, score_entry,
      build_entry_text, cosine_similarity, vecNorm, dotProduct, svcNext,
      wEntry1, cxKB, wRes1, List.lookup]
  simp [search, h, wRes1]

/-! ## C8: retry wrapper lemmas -/

/-- Shifting the geometric delay sequence by one backoff step. -/
theorem geom_delays_shift (delay b : ℚ) (n : Nat) (sleeps : List ℚ) :
    sleeps ++ [delay] ++ (List.range n).map (fun i => delay * b * b ^ i) =
      sleeps ++ (List.range (n + 1)).map (fun i => delay * b ^ i) := by
  rw [List.append_assoc]
  congr 1
  rw [List.range_succ_eq_map, List.map_cons]
  simp only [pow_zero, mul_one, List.map_map, List.singleton_append]
  congr 1
  apply List.map_congr_left
  intro i _
  simp only [Function.comp_apply, pow_succ]
  ring

/-- An immediate success makes no further attempts and no sleeps. -/
theorem retry_go_ok (attempts : Nat → CallAttempt α) (mr : Nat) (b : ℚ)
    (attempt remaining : Nat) (delay : ℚ) (sleeps : List ℚ) (v : α)
    (h : attempts attempt = .ok v) :
    retry_go attempts mr b attempt remaining delay sleeps =
      ⟨.ok v, sleeps, attempt + 1⟩ := by
  rw [retry_go, h]

/-- An exception outside the retry tuple propagates immediately: no sleep,
no further attempt, whatever retry budget remains. -/
theorem retry_go_raise (attempts : Nat → CallAttempt α) (mr : Nat) (b : ℚ)
    (attempt remaining : Nat) (delay : ℚ) (sleeps : List ℚ) (m : String)
    (h : attempts attempt = .otherExc m) :
    retry_go attempts mr b attempt remaining delay sleeps =
      ⟨.raised m, sleeps, attempt + 1⟩ := by
  rw [retry_go, h]

/-- Running with `n` leading tuple failures followed by a success: the value is
returned after `n` retries, each preceded by one sleep of the geometric
delay sequence. -/
theorem retry_go_ok_after (attempts : Nat → CallAttempt α) (mr : Nat) (b : ℚ)
    (kinds : Nat → APIErrKind) (msgs : Nat → String) (v : α) :
    ∀ (n attempt remaining : Nat) (delay : ℚ) (sleeps : List ℚ),
      n ≤ remaining →
      (∀ i, i < n → attempts (attempt + i) = .apiErr (kinds (attempt + i))
        (msgs (attempt + i))) →
      attempts (attempt + n) = .ok v →
      retry_go attempts mr b attempt remaining delay sleeps =
        ⟨.ok v, sleeps ++ (List.range n).map (fun i => delay * b ^ i),
          attempt + n + 1⟩ := by
  intro n
  induction n with
  | zero =>
    intro attempt remaining delay sleeps _ _ hok
    simp only [Nat.add_zero] at hok
    simp [retry_go_ok attempts mr b attempt remaining delay sleeps v hok]
  | succ n ih =>
    intro attempt remaining delay sleeps hle hfail hok
    have h0 : attempts attempt = .apiErr (kinds attempt) (msgs attempt) := by
      simpa using hfail 0 (Nat.succ_pos n)
    rcases remaining with _ | r
    · omega
    rw [retry_go, h0]
    dsimp only
    have hrec := ih (attempt + 1) r (delay * b) (sleeps ++ [delay])
      (by omega)
      (by
        intro i hi
        have := hfail (i + 1) (by omega)
        simpa [Nat.add_assoc, Nat.add_comm 1 i] using this)
      (by
        have : attempt + 1 + n = attempt + (n + 1) := by omega
        rw [this]
        exact hok)
    rw [hrec, geom_delays_shift]
    congr 1
    omega

/-- Tuple failures at every attempt up to the retry budget: the wrapper
sleeps the full geometric sequence and raises the normalized `LLMError`
carrying the last underlying cause. -/
theorem retry_go_exhaust (attempts : Nat → CallAttempt α) (mr : Nat) (b : ℚ)
    (kinds : Nat → APIErrKind) (msgs : Nat → String) :
    ∀ (remaining attempt : Nat) (delay : ℚ) (sleeps : List ℚ),
      (∀ i, i ≤ remaining → attempts (attempt + i) = .apiErr
        (kinds (attempt + i)) (msgs (attempt + i))) →
      retry_go attempts mr b attempt remaining delay sleeps =
        ⟨.llmError ("LLM call failed after " ++ toString mr ++ " retries: "
            ++ msgs (attempt + remaining)),
          sleeps ++ (List.range remaining).map (fun i => delay * b ^ i),
          attempt + remaining + 1⟩ := by
  intro remaining
  induction remaining with
  | zero =>
    intro attempt delay sleeps hfail
    have h0 := hfail 0 (Nat.le_refl 0)
    simp only [Nat.add_zero] at h0
    rw [retry_go, h0]
    simp
  | succ r ih =>
    intro attempt delay sleeps hfail
    have h0 : attempts attempt = .apiErr (kinds attempt) (msgs attempt) := by
      simpa using hfail 0 (Nat.zero_le _)
    rw [retry_go, h0]
    dsimp only
    have hrec := ih (attempt + 1) (delay * b) (sleeps ++ [delay])
      (by
        intro i hi
        have := hfail (i + 1) (by omega)
        simpa [Nat.add_assoc, Nat.add_comm 1 i] using this)
    rw [hrec, geom_delays_shift]
    have hidx : attempt + 1 + r = attempt + (r + 1) := by omega
    rw [hidx]

/-- C8 (amended): the wrapper makes up to `max_retries` additional
attempts on exceptions of the configured tuple — every `APIError`
subclass, including generic API errors beyond rate limit/timeout/
connection — sleeping `initial_delay`, then multiplying the delay by
`backoff_factor` after each retried attempt; exceptions outside the tuple
propagate immediately without delay; exhaustion raises one normalized
`LLMError` carrying the last underlying cause.  The effective default
budget comes from `get_settings`, which in the default (dev) environment
yields `MAX_RETRIES = 2` — the base `Settings` class declares 3 but is
never the instance returned. -/
theorem C8_retry_policy (d b : ℚ) (mr : Nat) (attempts : Nat → CallAttempt α)
    (kinds : Nat → APIErrKind) (msgs : Nat → String) (v : α) (m : String)
    (n : Nat) :
    ((get_settings "dev").MAX_RETRIES = 2 ∧ baseSettings.MAX_RETRIES = 3 ∧
      (get_settings "dev").RETRY_DELAY = 1 ∧
      (get_settings "dev").RETRY_BACKOFF = 2) ∧
    (attempts 0 = .otherExc m →
      retry_with_backoff mr d b attempts = ⟨.raised m, [], 1⟩) ∧
    (n ≤ mr →
      (∀ i, i < n → attempts i = .apiErr (kinds i) (msgs i)) →
      attempts n = .ok v →
      retry_with_backoff mr d b attempts =
        ⟨.ok v, (List.range n).map (fun i => d * b ^ i), n + 1⟩) ∧
    ((∀ i, i ≤ mr → attempts i = .apiErr (kinds i) (msgs i)) →
      retry_with_backoff mr d b attempts =
        ⟨.llmError ("LLM call failed after " ++ toString mr ++ " retries: "
            ++ msgs mr),
          (List.range mr).map (fun i => d * b ^ i), mr + 1⟩) := by
  refine ⟨⟨rfl, rfl, rfl, rfl⟩, ?_, ?_, ?_⟩
  · intro h
    exact retry_go_raise attempts mr b 0 mr d [] m h
  · intro hle hfail hok
    have := retry_go_ok_after attempts mr b kinds msgs v n 0 mr d [] hle
      (by simpa using hfail) (by simpa using hok)
    simpa using this
  · intro hfail
    have := retry_go_exhaust attempts mr b kinds msgs mr 0 d []
      (by simpa using hfail)
    simpa using this

/-- C8's amended statement evaluated: one rate-limit failure then a value
(one retry, one sleep of the initial delay), and a run of three timeouts
exhausting the dev budget of two retries into the normalized error. -/
theorem C8_retry_policy_witness :
    retry_with_backoff 2 1 2
        (fun i => if i = 0 then .apiErr .rateLimit "rate limited" else .ok 7) =
      ⟨.ok 7, (List.range 1).map (fun i => (1 : ℚ) * 2 ^ i), 2⟩ ∧
    retry_with_backoff 2 1 2
        (fun i => (.apiErr .timeout "Request timed out." : CallAttempt Nat)) =
      ⟨.llmError "LLM call failed after 2 retries: Request timed out.",
        (List.range 2).map (fun i => (1 : ℚ) * 2 ^ i), 3⟩ := by
  constructor
  · exact (C8_retry_policy 1 2 2
      (fun i => if i = 0 then .apiErr .rateLimit "rate limited" else .ok 7)
      (fun _ => .rateLimit) (fun _ => "rate limited") 7 "" 1).2.2.1
      (by decide) (by decide) (by decide)
  · exact (C8_retry_policy 1 2 2
      (fun _ => (.apiErr .timeout "Request timed out." : CallAttempt Nat))
      (fun _ => .timeout) (fun _ => "Request timed out.") 0 "" 0).2.2.2
      (by intro i _; rfl)

/-- C8 counterexample: with the actual default configuration
(`get_settings "dev"`, `MAX_RETRIES = 2`) a call that fails retryably
three times and would then succeed is instead normalized into `LLMError`
— a budget of 3 additional attempts, as claimed, would have returned the
value — and a generic `APIError` that is not a rate-limit/timeout/
connection error is retried rather than propagated immediately. -/
theorem C8_retry_counterexample :
    (retry_with_backoff (get_settings "dev").MAX_RETRIES 1 2
        (fun i => if i < 3 then .apiErr .timeout ("t" ++ toString i)
          else .ok (7 : Nat))).result =
      .llmError "LLM call failed after 2 retries: t2" ∧
    (retry_with_backoff 3 1 2
        (fun i => if i < 3 then .apiErr .timeout ("t" ++ toString i)
          else .ok (7 : Nat))).result = .ok 7 ∧
    (retry_with_backoff (get_settings "dev").MAX_RETRIES 1 2
        (fun i => if i = 0 then .apiErr .apiOther "HTTP 400 bad request"
          else .ok (9 : Nat))).result = .ok 9 := by
  refine ⟨?_, ?_, ?_⟩ <;> decide

/-! ## C4 -/

/-- Every event built for one message has a fixed key set without
`thread_id` and a type other than `interrupt`. -/
theorem messageEvents_keys (msg : Message) (ev : Event)
    (h : ev ∈ messageEvents msg) :
    ev.lookup "thread_id" = none ∧ ev.lookup "type" ≠ some "interrupt" := by
  unfold messageEvents at h
  by_cases hc : msg.content = ""
  · rw [if_pos hc] at h
    simp only [List.nil_append, List.mem_map] at h
    obtain ⟨tc, _, rfl⟩ := h
    exact ⟨rfl, by simp [List.lookup]⟩
  · rw [if_neg hc] at h
    simp only [List.singleton_append, List.mem_cons, List.mem_map] at h
    rcases h with rfl | ⟨tc, _, rfl⟩
    · exact ⟨rfl, by simp [List.lookup]⟩
    · exact ⟨rfl, by simp [List.lookup]⟩

/-- Every event built for one node output has a fixed key set without
`thread_id` and a type other than `interrupt`. -/
theorem nodeEvents_keys (node_name : String) (u : NodeUpdate) (ev : Event)
    (h : ev ∈ nodeEvents node_name u) :
    ev.lookup "thread_id" = none ∧ ev.lookup "type" ≠ some "interrupt" := by
  unfold nodeEvents at h
  simp only [List.mem_append, List.mem_cons, List.not_mem_nil, or_false,
    List.mem_flatten, List.mem_map] at h
  rcases h with (((h | h) | h) | ⟨l, ⟨m, hm, rfl⟩, hl⟩) | h
  · subst h
    exact ⟨rfl, by simp [List.lookup]⟩
  · split at h
    · split at h
      · simp only [List.mem_cons, List.not_mem_nil, or_false] at h
        subst h
        exact ⟨rfl, by simp [List.lookup]⟩
      · simp at h
    · simp at h
  · split at h
    · split at h
      · simp only [List.mem_cons, List.not_mem_nil, or_false] at h
        subst h
        exact ⟨rfl, by simp [List.lookup]⟩
      · simp at h
    · simp at h
  · exact messageEvents_keys m ev hl
  · subst h
    exact ⟨rfl, by simp [List.lookup]⟩

/-- C4: `triage_stream` mints no thread identifier.  For every description
and every graph behaviour, the first event is the fixed `status` event —
which carries no `thread_id` key — and no event of the stream carries a
`thread_id` key or is an `interrupt` event, contradicting the claim that
the minted `thread_id` appears in the first status event and in interrupt
events (the repository's own test asserts a `thread_id` in a status
event). -/
theorem C4_no_thread_id_in_stream (description : String)
    (gevents : List (List (String × NodeUpdate))) (exc : Option String) :
    (triage_stream description gevents exc).head? =
      some [("type", "status"), ("message", "Starting triage with LangGraph")] ∧
    (∀ ev ∈ triage_stream description gevents exc,
      ev.lookup "thread_id" = none) ∧
    (∀ ev ∈ triage_stream description gevents exc,
      ev.lookup "type" ≠ some "interrupt") := by
  have hmem : ∀ ev ∈ triage_stream description gevents exc,
      ev.lookup "thread_id" = none ∧ ev.lookup "type" ≠ some "interrupt" := by
    intro ev h
    unfold triage_stream at h
    simp only [List.cons_append, List.nil_append, List.mem_cons,
      List.mem_append, List.mem_flatten, List.mem_map] at h
    rcases h with h | ⟨⟨l, ⟨ev2, hev2, rfl⟩, hl⟩ | h⟩
    · subst h
      exact ⟨rfl, by simp [List.lookup]⟩
    · simp only [List.mem_flatten, List.mem_map] at hl
      rcases hl with ⟨l2, ⟨p, hp, rfl⟩, hl2⟩
      exact nodeEvents_keys p.1 p.2 ev hl2
    · rcases exc with _ | m <;>
        simp only [List.mem_cons, List.not_mem_nil, or_false] at h <;>
        subst h <;>
        exact ⟨rfl, by simp [List.lookup]⟩
  exact ⟨rfl, fun ev h => (hmem ev h).1, fun ev h => (hmem ev h).2⟩

/-- C4's theorem applied to a concrete run: the stream of a triage of
`"Getting error 500 on mobile checkout"` whose graph run yields one
search-node update, checked on its first event. -/
theorem C4_no_thread_id_in_stream_witness :
    List.lookup "thread_id"
      [("type", "status"), ("message", "Starting triage with LangGraph")] =
      none :=
  (C4_no_thread_id_in_stream "Getting error 500 on mobile checkout"
      [[("search_kb", { emptyUpdate with kb_results := some "No matching known issues found in the knowledge base." })]]
      none).2.1
    [("type", "status"), ("message", "Starting triage with LangGraph")]
    (by simp [triage_stream])

/-! ## C5 -/

/-- C5: resuming never reaches a suspended workflow.  `TriageAgent` has no
`resume_with_details` method, so for every nonempty `thread_id` and
non-blank `additional_details` — in particular every unknown `thread_id` —
the endpoint's `try` block raises `AttributeError`, caught by the bare
`except` and surfaced as a generic 500 server error: not the dedicated
unknown-thread `NotFoundError` client error the claim requires. -/
theorem C5_resume_attribute_error (thread_id additional_details : String)
    (h1 : thread_id ≠ "") (h2 : pyStrip additional_details ≠ "") :
    resume_ticket_triage thread_id additional_details =
      .httpError 500 "TriageAgent object has no attribute resume_with_details" ∧
    statusCode (resume_ticket_triage thread_id additional_details) = 500 ∧
    ("resume_with_details" ∈ triageAgentMethods → False) ∧
    statusCode (resume_ticket_triage thread_id additional_details) ≠ 404 := by
  have hres : resume_ticket_triage thread_id additional_details =
      .httpError 500 "TriageAgent object has no attribute resume_with_details" := by
    simp [resume_ticket_triage, h1, h2, triageAgentMethods]
  refine ⟨hres, ?_, ?_, ?_⟩
  · rw [hres]
    rfl
  · intro hmem
    simp [triageAgentMethods] at hmem
  · rw [hres]
    simp [statusCode]

/-- C5 on the concrete unknown thread `"nonexistent-123"`: the resume
endpoint answers 500, not 404. -/
theorem C5_resume_attribute_error_witness :
    resume_ticket_triage "nonexistent-123"
        "browser Chrome, error happens on step 2" =
      .httpError 500 "TriageAgent object has no attribute resume_with_details" ∧
    statusCode (resume_ticket_triage "nonexistent-123"
        "browser Chrome, error happens on step 2") ≠ 404 := by
  refine ⟨?_, ?_⟩
  · exact (C5_resume_attribute_error "nonexistent-123"
      "browser Chrome, error happens on step 2" (by decide) (by decide)).1
  · exact (C5_resume_attribute_error "nonexistent-123"
      "browser Chrome, error happens on step 2" (by decide) (by decide)).2.2.2

end TicketTriage
